import Mathlib

/-!
Formal model of the tabiew interaction engine, shallowly embedding the Rust
sources under `src/`:

* `src/misc/polars_ext.rs` — schema/type inference (`safe_infer_schema`,
  `type_infered_series`) and fuzzy matching (`FuzzyCmp::fuzzy_cmp`);
* `src/app/tabular.rs` — the viewport engine (`Tabular`);
* `src/app.rs` — the action dispatcher (`App::invoke`), navigation arms;
* `src/reader/fwf.rs` — fixed-width column-boundary inference (`infer_widths`);
* `src/handler/key.rs` — the hierarchical key-to-action resolver.

Machine integers (`usize`) are modelled as `Nat`; the one place where the
source performs an unchecked addition that can overflow is modelled with an
explicit reduction modulo `2 ^ 64`.
-/

namespace Tabiew

/-- The modulus of Rust's `usize` on a 64-bit platform. -/
def USIZE : Nat := 2 ^ 64

/-- Rust's `usize::MAX`. -/
def USIZE_MAX : Nat := 2 ^ 64 - 1

/-! ## Data frames and schema inference (`src/misc/polars_ext.rs`)

The polars `DataFrame`/`Series` types are external collaborators.  A series is
modelled as a name, a data type tag, and a list of optional cell values
(`none` is a polars null). -/

/-- The polars data types that appear in `type_infered_series`
(`src/misc/polars_ext.rs`, lines 49-61), plus `str` for text columns. -/
inductive DType where
  | str
  | int64
  | float64
  | boolean
  | date
  | time
  | datetime
deriving Repr, DecidableEq

/-- An `f64` value, modelled as the exact decimal fraction
`mant / 10 ^ exp10` it was parsed from.  No float arithmetic occurs in the
modelled fragment — only decimal parsing, truncation toward zero, and
zero-tests — and every literal in this development is exactly representable
in `f64`, so the exact-decimal model agrees with IEEE `f64` on everything
the embedded code does with it. -/
structure F64 where
  mant : Int
  exp10 : Nat
deriving Repr, DecidableEq

/-- A single (non-null) polars cell value.  `date` counts days since
1970-01-01, `time` counts nanoseconds since midnight, and `datetime` counts
milliseconds since the epoch (the polars physical representations). -/
inductive PVal where
  | vStr (s : String)
  | vInt (i : Int)
  | vFloat (q : F64)
  | vBool (b : Bool)
  | vDate (d : Int)
  | vTime (t : Int)
  | vDatetime (t : Int)
deriving Repr, DecidableEq

/-- A polars series: column name, data type, cells (with `none` for null). -/
structure Series where
  name : String
  dtype : DType
  values : List (Option PVal)
deriving Repr, DecidableEq

/-- A polars data frame: an ordered list of columns.  Polars guarantees that
column names are unique. -/
structure DataFrame where
  columns : List Series
deriving Repr, DecidableEq

/-- Number of rows, i.e. the height of the first column (polars keeps all
columns the same length). -/
def DataFrame.height (df : DataFrame) : Nat :=
  (df.columns.head?.map (fun s => s.values.length)).getD 0

/-- Numeric value of a list of decimal digit characters. -/
def natOfDigits (cs : List Char) : Nat :=
  cs.foldl (fun a c => a * 10 + (c.toNat - 48)) 0

/-- Strict decimal integer body: one or more digits, nothing else. -/
def digitsVal? (cs : List Char) : Option Nat :=
  if cs ≠ [] ∧ cs.all Char.isDigit then some (natOfDigits cs) else none

/-- Modelled from the spec: polars' string-to-integer cast (an external
collaborator, spec section 4.7 treats casting as the primitive).  Non-strict
casting parses an optional sign followed by decimal digits and yields null
otherwise, so a string such as "1.5" does not parse as an integer. -/
def parseIntStr (s : String) : Option Int :=
  match s.data with
  | '+' :: rest => (digitsVal? rest).map Int.ofNat
  | '-' :: rest => (digitsVal? rest).map (fun n => -(n : Int))
  | cs => (digitsVal? cs).map Int.ofNat

/-- Unsigned decimal number with an optional fractional part ("12", "1.5",
".5", "5.").  The exponent forms accepted by polars' float parser are outside
the modelled fragment; no value in this development uses them. -/
def parseUnsignedFloat (cs : List Char) : Option F64 :=
  let ip := cs.takeWhile (fun c => c ≠ '.')
  match cs.dropWhile (fun c => c ≠ '.') with
  | [] => (digitsVal? ip).map (fun n => ⟨(n : Int), 0⟩)
  | _ :: frac =>
    if ip = [] ∧ frac = [] then none
    else if ip.all Char.isDigit ∧ frac.all Char.isDigit then
      some ⟨(natOfDigits ip * 10 ^ frac.length + natOfDigits frac : Nat), frac.length⟩
    else none

/-- Modelled from the spec: polars' string-to-float cast (external
collaborator): optional sign, then an unsigned decimal number. -/
def parseFloatStr (s : String) : Option F64 :=
  match s.data with
  | '+' :: rest => parseUnsignedFloat rest
  | '-' :: rest => (parseUnsignedFloat rest).map (fun q => ⟨-q.mant, q.exp10⟩)
  | cs => parseUnsignedFloat cs

/-- Modelled from the spec: polars' string-to-boolean cast (external
collaborator), per-value: only the literals "true" and "false" parse. -/
def parseBoolStr (s : String) : Option Bool :=
  if s = "true" then some true else if s = "false" then some false else none

/-- Whether a year is a Gregorian leap year. -/
def isLeapYear (y : Int) : Bool :=
  y % 4 = 0 ∧ (y % 100 ≠ 0 ∨ y % 400 = 0)

/-- Days in a month of a given year (months numbered 1-12). -/
def daysInMonth (y m : Int) : Int :=
  if m = 2 then (if isLeapYear y then 29 else 28)
  else if m = 4 ∨ m = 6 ∨ m = 9 ∨ m = 11 then 30
  else 31

/-- Days between 1970-01-01 and the given civil date (standard
days-from-civil computation over the proleptic Gregorian calendar). -/
def daysFromCivil (y m d : Int) : Int :=
  let y' := if m ≤ 2 then y - 1 else y
  let era := (if 0 ≤ y' then y' else y' - 399).fdiv 400
  let yoe := y' - era * 400
  let mp := (m + 9) % 12
  let doy := (153 * mp + 2).fdiv 5 + d - 1
  let doe := yoe * 365 + yoe.fdiv 4 - yoe.fdiv 100 + doy
  era * 146097 + doe - 719468

/-- Modelled from the spec: polars' string-to-date cast (external
collaborator). Dates are parsed as year-month-day separated by dashes, with
one or two digit month and day (the repository's own test data uses
"2022-1-1"), validated against the Gregorian calendar, and represented as
days since the epoch. -/
def parseDateStr (s : String) : Option Int :=
  match (s.data.splitOn '-').map digitsVal? with
  | [some y, some m, some d] =>
    if 1 ≤ (m : Int) ∧ (m : Int) ≤ 12 ∧ 1 ≤ (d : Int) ∧ (d : Int) ≤ daysInMonth y m then
      some (daysFromCivil y m d)
    else none
  | _ => none

/-- Modelled from the spec: polars' string-to-time cast (external
collaborator). Times are parsed as hour:minute:second and represented as
nanoseconds since midnight. -/
def parseTimeStr (s : String) : Option Int :=
  match (s.data.splitOn ':').map digitsVal? with
  | [some h, some m, some sec] =>
    if h < 24 ∧ m < 60 ∧ sec < 60 then
      some (((h * 3600 + m * 60 + sec : Nat) : Int) * 1000000000)
    else none
  | _ => none

/-- Modelled from the spec: polars' string-to-datetime cast (external
collaborator). Datetimes are parsed as a date, a space, and a time, and
represented in milliseconds since the epoch. -/
def parseDatetimeStr (s : String) : Option Int :=
  match s.data.splitOn ' ' with
  | [d, t] =>
    match parseDateStr ⟨d⟩, parseTimeStr ⟨t⟩ with
    | some days, some ns => some (days * 86400000 + ns.fdiv 1000000)
    | _, _ => none
  | _ => none

/-- Rendering of a value as text (used only by the string target of `castVal`,
which the inference candidate list never selects). -/
def formatVal : PVal → String
  | .vStr s => s
  | .vInt i => toString i
  | .vFloat q => toString q.mant
  | .vBool b => if b then "true" else "false"
  | .vDate d => toString d
  | .vTime t => toString t
  | .vDatetime t => toString t

/-- Modelled from the spec: the per-value semantics of polars' non-strict
`Series::cast` (external collaborator; spec section 4.7 builds inference on
"attempt cast to each candidate type").  `none` means the value becomes null
(failed parse) or the cast combination is unsupported; polars rejects
unsupported combinations with a series-level error, which `type_infered_series`
filters out with `.ok()` — both behaviours make the candidate unusable, so
they are observationally equal for the inference procedure.  Numeric casts
follow polars: float-to-integer truncates toward zero, booleans become 0/1,
temporal types expose their physical integer representation. -/
def castVal : DType → PVal → Option PVal
  | .str, v => some (.vStr (formatVal v))
  | .int64, .vStr s => (parseIntStr s).map .vInt
  | .int64, .vInt i => some (.vInt i)
  | .int64, .vFloat q => some (.vInt (q.mant.tdiv ((10 : Int) ^ q.exp10)))
  | .int64, .vBool b => some (.vInt (if b then 1 else 0))
  | .int64, .vDate d => some (.vInt d)
  | .int64, .vTime t => some (.vInt t)
  | .int64, .vDatetime t => some (.vInt t)
  | .float64, .vStr s => (parseFloatStr s).map .vFloat
  | .float64, .vInt i => some (.vFloat ⟨i, 0⟩)
  | .float64, .vFloat q => some (.vFloat q)
  | .float64, .vBool b => some (.vFloat ⟨if b then 1 else 0, 0⟩)
  | .float64, .vDate d => some (.vFloat ⟨d, 0⟩)
  | .float64, .vTime t => some (.vFloat ⟨t, 0⟩)
  | .float64, .vDatetime t => some (.vFloat ⟨t, 0⟩)
  | .boolean, .vStr s => (parseBoolStr s).map .vBool
  | .boolean, .vInt i => some (.vBool (i ≠ 0))
  | .boolean, .vFloat q => some (.vBool (q.mant ≠ 0))
  | .boolean, .vBool b => some (.vBool b)
  | .boolean, _ => none
  | .date, .vStr s => (parseDateStr s).map .vDate
  | .date, .vInt i => some (.vDate i)
  | .date, .vDate d => some (.vDate d)
  | .date, .vDatetime t => some (.vDate (t.fdiv 86400000))
  | .date, _ => none
  | .time, .vStr s => (parseTimeStr s).map .vTime
  | .time, .vInt i => some (.vTime i)
  | .time, .vTime t => some (.vTime t)
  | .time, _ => none
  | .datetime, .vStr s => (parseDatetimeStr s).map .vDatetime
  | .datetime, .vInt i => some (.vDatetime i)
  | .datetime, .vDate d => some (.vDatetime (d * 86400000))
  | .datetime, .vDatetime t => some (.vDatetime t)
  | .datetime, _ => none

/-- Casting a whole series: every cell is cast, nulls stay null, the name is
kept and the data type becomes the target. -/
def castSeries (d : DType) (s : Series) : Series :=
  ⟨s.name, d, s.values.map (fun o => o.bind (castVal d))⟩

/-- The null mask of a series (`Series::is_null` in polars). -/
def Series.nullMask (s : Series) : List Bool :=
  s.values.map Option.isNone

/-- The candidate data types tried by `type_infered_series`
(`src/misc/polars_ext.rs`, lines 50-57), in source order. -/
def candidateDTypes : List DType :=
  [.int64, .float64, .boolean, .date, .time, .datetime]

/-- Embedding of `type_infered_series` (`src/misc/polars_ext.rs`, lines
49-61): cast the series to each candidate type and return the first result
whose null mask equals the original's (no value silently became null). -/
def typeInferedSeries (s : Series) : Option Series :=
  (candidateDTypes.map (fun d => castSeries d s)).find?
    (fun cast_s => s.nullMask = cast_s.nullMask)

/-- Replace the column with the given name (`DataFrame::replace`). -/
def DataFrame.replaceCol (df : DataFrame) (name : String) (s : Series) : DataFrame :=
  ⟨df.columns.map (fun c => if c.name = name then s else c)⟩

/-- Embedding of `SafeInferSchema::safe_infer_schema`
(`src/misc/polars_ext.rs`, lines 36-47): collect the successfully inferred
columns together with their names, then replace each in the frame. -/
def DataFrame.safe_infer_schema (df : DataFrame) : DataFrame :=
  (df.columns.filterMap (fun s => (typeInferedSeries s).map (fun s' => (s'.name, s')))).foldl
    (fun acc ns => acc.replaceCol ns.1 ns.2) df

/-! ## The viewport engine (`src/app/tabular.rs`)

`Tabular` is embedded with its navigation-relevant fields.  The display
caches (`widths`, `headers`, `table_values`) are derived from `data_frame`
and are folded into it; `table_values.height()` is the frame's row count.
The source's navigation methods mutate `&mut self` and always return
`Ok(())`, so they are embedded as plain state functions; the two fallible
methods (`scroll_up`, `scroll_down`) return the new state paired with the
`AppResult` outcome. -/

/-- Modelled from the spec: the `utils::Scroll` primitive is not under
`src/`.  Per spec section 4.3 it is a 1-D line offset whose `up`/`down` move
by one line, saturating at the bounds (the lower bound here; the upper bound
is clamped by `adjust` at render time). -/
structure Scroll where
  val : Nat
deriving Repr, DecidableEq

/-- Move the scroll offset one line up, saturating at 0. -/
def Scroll.up (s : Scroll) : Scroll := ⟨s.val - 1⟩

/-- Move the scroll offset one line down (clamped later by `adjust`). -/
def Scroll.down (s : Scroll) : Scroll := ⟨s.val + 1⟩

/-- Embedding of the `Tabular` state (`src/app/tabular.rs`, lines 18-28). -/
structure Tabular where
  offset : Nat
  select : Nat
  rendered_rows : Nat
  data_frame : DataFrame
  scroll : Option Scroll
deriving Repr, DecidableEq

/-- `Tabular::new` (lines 32-47): fresh state over a frame. -/
def Tabular.new (df : DataFrame) : Tabular :=
  ⟨0, 0, 0, df, none⟩

/-- The row count, `self.table_values.height()` in the source. -/
def Tabular.height (t : Tabular) : Nat := t.data_frame.height

/-- `Tabular::select` (lines 73-76): clamp the requested row into range;
`height().saturating_sub(1)` is `Nat` subtraction.  Named `selectTo` because
the structure field keeps the source's field name `select`. -/
def Tabular.selectTo (t : Tabular) (s : Nat) : Tabular :=
  { t with select := min s (t.height - 1) }

/-- `Tabular::select_up` (lines 52-54): `saturating_sub` then clamp. -/
def Tabular.select_up (t : Tabular) (len : Nat) : Tabular :=
  t.selectTo (t.select - len)

/-- `Tabular::select_down` (lines 56-58): the source computes
`self.select + len` with an unchecked `usize` addition, which wraps modulo
`2 ^ 64` in release builds (and panics in debug builds); the wrap is
modelled explicitly. -/
def Tabular.select_down (t : Tabular) (len : Nat) : Tabular :=
  t.selectTo ((t.select + len) % USIZE)

/-- `Tabular::select_first` (lines 60-62): select `usize::MIN`. -/
def Tabular.select_first (t : Tabular) : Tabular :=
  t.selectTo 0

/-- `Tabular::select_last` (lines 64-66): select `usize::MAX`. -/
def Tabular.select_last (t : Tabular) : Tabular :=
  t.selectTo USIZE_MAX

/-- `Tabular::select_random` (lines 68-71): `rng.gen_range(0..height)` panics
on an empty range, modelled as `none`; otherwise the uniform draw is modelled
by reducing an arbitrary seed `r` modulo the range size. -/
def Tabular.select_random (t : Tabular) (r : Nat) : Option Tabular :=
  if t.height = 0 then none
  else some (t.selectTo (r % t.height))

/-- `Tabular::scroll_up` (lines 78-85): only valid in detail view; otherwise
an error is returned and the state is untouched. -/
def Tabular.scroll_up (t : Tabular) : Tabular × Except String Unit :=
  match t.scroll with
  | some s => ({ t with scroll := some s.up }, .ok ())
  | none => (t, .error "Not in detail view")

/-- `Tabular::scroll_down` (lines 87-94). -/
def Tabular.scroll_down (t : Tabular) : Tabular × Except String Unit :=
  match t.scroll with
  | some s => ({ t with scroll := some s.down }, .ok ())
  | none => (t, .error "Not in detail view")

/-- `Tabular::page_len` (lines 96-98): the rendered row count. -/
def Tabular.page_len (t : Tabular) : Nat := t.rendered_rows

/-- Rust's `Ord::clamp`; the source only calls it with `lo ≤ hi` (the lower
bound is `select.saturating_sub(..)`, the upper bound `select`), where it
equals `max lo (min x hi)`. -/
def clampNat (x lo hi : Nat) : Nat := max lo (min x hi)

/-- `Tabular::adjust_offset` (lines 100-106): clamp the window offset into
`[select - (rendered_rows - 1), select]` (saturating subtractions). -/
def Tabular.adjust_offset (t : Tabular) : Tabular :=
  { t with offset := clampNat t.offset (t.select - (t.rendered_rows - 1)) t.select }

/-- The render step (`Tabular::render`, line 172) stores the current table
viewport height into `rendered_rows`; the stored value is arbitrary here. -/
def Tabular.setRenderedRows (t : Tabular) (rr : Nat) : Tabular :=
  { t with rendered_rows := rr }

/-- `Tabular::set_data_frame` (lines 126-138): replace the active frame
(and its derived display data) and reset the viewport to the origin. -/
def Tabular.set_data_frame (t : Tabular) (df : DataFrame) : Tabular :=
  { t with offset := 0, select := 0, data_frame := df }

/-- The navigation operations quantified over in the viewport invariant:
direct selection and the four relative/absolute movements. -/
inductive NavOp where
  | sel (n : Nat)
  | up (n : Nat)
  | down (n : Nat)
  | first
  | last
deriving Repr, DecidableEq

/-- Apply one navigation operation. -/
def Tabular.applyNav (t : Tabular) : NavOp → Tabular
  | .sel n => t.selectTo n
  | .up n => t.select_up n
  | .down n => t.select_down n
  | .first => t.select_first
  | .last => t.select_last

/-- Apply a sequence of navigation operations in order. -/
def Tabular.applyNavs (t : Tabular) (ops : List NavOp) : Tabular :=
  ops.foldl Tabular.applyNav t

/-- The navigation arms of `App::invoke` (`src/app.rs`, lines 174-196) that
act on the `Tabular` state. -/
inductive TabAction where
  | goto (line : Nat)
  | gotoFirst
  | gotoLast
  | goUp (lines : Nat)
  | goUpHalfPage
  | goUpFullPage
  | goDown (lines : Nat)
  | goDownHalfPage
  | goDownFullPage
deriving Repr, DecidableEq

/-- Embedding of the corresponding `App::invoke` arms: half-page movement
uses `page_len().div(2)` (integer division), full-page uses `page_len()`. -/
def Tabular.invoke (t : Tabular) : TabAction → Tabular
  | .goto line => t.selectTo line
  | .gotoFirst => t.select_first
  | .gotoLast => t.select_last
  | .goUp lines => t.select_up lines
  | .goUpHalfPage => t.select_up (t.page_len / 2)
  | .goUpFullPage => t.select_up t.page_len
  | .goDown lines => t.select_down lines
  | .goDownHalfPage => t.select_down (t.page_len / 2)
  | .goDownFullPage => t.select_down t.page_len

/-! ## Column-boundary inference (`src/reader/fwf.rs`)

`read_to_data_frame` (lines 37-53) computes, per line, the character length
and the set of character indices holding whitespace, reduces across lines by
maximum length and set intersection, appends the maximum length, sorts, and
feeds the result to `infer_widths`. -/

/-- Per-line data (lines 41-49): character count and ascending list of
whitespace positions.  Rust's `char::is_whitespace` uses the Unicode
White_Space property; `Char.isWhitespace` covers its ASCII fragment, which
is all this development exercises. -/
def lineMeta (line : String) : Nat × List Nat :=
  (line.data.length,
   line.data.enum.filterMap (fun p => if p.2.isWhitespace then some p.1 else none))

/-- The reduction step of line 50: maximum of lengths, intersection of
whitespace-position sets.  Sets are modelled as ascending lists, and
intersection as a membership filter (same set, same ascending order). -/
def metaReduce (a b : Nat × List Nat) : Nat × List Nat :=
  (max a.1 b.1, a.2.filter (fun i => i ∈ b.2))

/-- The reduced whitespace-intersection over all lines (second component of
the fold); `[]` when there is no line (`reduce` returns `None`). -/
def sharedSpaceIndices : List String → List Nat
  | [] => []
  | l :: ls => ((ls.map lineMeta).foldl metaReduce (lineMeta l)).2

/-- The maximum line length over all lines (first component of the fold). -/
def maxLineLength : List String → Nat
  | [] => 0
  | l :: ls => ((ls.map lineMeta).foldl metaReduce (lineMeta l)).1

/-- Lines 39-52 of `read_to_data_frame`: shared whitespace positions chained
with the maximum length, sorted ascending (`itertools::sorted`; modelled with
insertion sort, which agrees with any sort on these duplicate-free lists). -/
def commonSpaceIndices (lines : List String) : List Nat :=
  match lines with
  | [] => []
  | _ :: _ => (sharedSpaceIndices lines ++ [maxLineLength lines]).insertionSort (· ≤ ·)

/-- The loop body of `infer_widths` (`src/reader/fwf.rs`, lines 106-121),
with the running `start` made explicit: a width is emitted at every gap
greater than one between consecutive candidate positions, and at the final
position. -/
def inferWidthsAux (start : Nat) : List Nat → List Nat
  | [] => []
  | [idx] => [idx - start]
  | idx :: nidx :: rest =>
    if nidx - idx > 1 then (idx - start) :: inferWidthsAux (idx + 1) (nidx :: rest)
    else inferWidthsAux start (nidx :: rest)

/-- Embedding of `infer_widths` (`src/reader/fwf.rs`, lines 106-121). -/
def infer_widths (space_indices : List Nat) : List Nat :=
  inferWidthsAux 0 space_indices

/-! ## Fuzzy matching (`src/misc/polars_ext.rs`, lines 137-146)

`FuzzyCmp::fuzzy_cmp` delegates to `HasSubsequence::has_subsequence` from
`misc/type_ext.rs`, which is not under `src/`. -/

/-- Modelled from the spec: `has_subsequence` (`misc/type_ext.rs`) is not
under `src/`.  Spec section 4.4: the query's characters must all appear in
the candidate in the same relative order, not necessarily contiguous,
bounded by a budget "to avoid pathological blow-up" and "documented as a
performance safeguard, not a correctness requirement".  The budget is
modelled as the number of candidate characters consumed without matching
(skips); this is the only reading consistent with the spec's normative
examples (with a budget of total consumed characters, `matches("abc","ac")`
would be false, contradicting section 8).  `space` is the running skip
count. -/
def hasSubsequenceAux (maxSpace : Nat) : List Char → List Char → Nat → Bool
  | _, [], _ => true
  | [], _ :: _, _ => false
  | c :: cs, q :: qs, space =>
    if c = q then hasSubsequenceAux maxSpace cs qs space
    else if space + 1 > maxSpace then false
    else hasSubsequenceAux maxSpace cs (q :: qs) (space + 1)

/-- The subsequence test as called from `fuzzy_cmp`. -/
def hasSubsequence (s other : String) (maxSpace : Nat) : Bool :=
  hasSubsequenceAux maxSpace s.data other.data 0

/-- The fragment of polars' `AnyValue` that `fuzzy_cmp` distinguishes:
null, string, and everything else (reached through `into_multi_line`). -/
inductive AnyValue where
  | null
  | str (s : String)
deriving Repr, DecidableEq

/-- Embedding of `FuzzyCmp::fuzzy_cmp` (`src/misc/polars_ext.rs`, lines
137-146): null never matches; a string cell runs the subsequence test with
the query's byte length as the budget (`other.len()` counts bytes). -/
def AnyValue.fuzzy_cmp (v : AnyValue) (other : String) : Bool :=
  match v with
  | .null => false
  | .str s => hasSubsequence s other other.utf8ByteSize

/-! ## The context-sensitive key resolver (`src/handler/key.rs`) -/

/-- The fragment of crossterm's `KeyCode` exercised by the key handler.
`endKey` stands for crossterm's `KeyCode::End` (`end` is a Lean keyword). -/
inductive KeyCode where
  | null
  | char (c : Char)
  | left
  | right
  | up
  | down
  | enter
  | esc
  | backspace
  | delete
  | home
  | endKey
  | pageUp
  | pageDown
deriving Repr, DecidableEq

/-- Crossterm's `KeyModifiers` bit set (the four flags the handler uses). -/
structure KeyModifiers where
  shift : Bool
  ctrl : Bool
  alt : Bool
  meta : Bool
deriving Repr, DecidableEq

/-- A crossterm key event: code plus modifier set. -/
structure KeyEvent where
  code : KeyCode
  modifiers : KeyModifiers
deriving Repr, DecidableEq

/-- Modelled from the spec: the `AppAction` declaration lives in
`handler/action.rs`, which is not under `src/`; its variants are taken from
their uses in `src/handler/key.rs` (spec section 3 describes the Action
tagged union, including the no-op). -/
inductive AppAction where
  | NoAction
  | TabRemoveOrQuit
  | TabPrev
  | TabNext
  | PalleteShow (prefill : String)
  | DismissErrorAndShowPallete
  | DismissError
  | SheetShow
  | SearchShow
  | TableToggleExpansion
  | TableGoUp (n : Nat)
  | TableGoDown (n : Nat)
  | TableScrollLeft
  | TableScrollRight
  | TableGoUpHalfPage
  | TableGoDownHalfPage
  | TableGoUpFullPage
  | TableGoDownFullPage
  | TableScrollStart
  | TableScrollEnd
  | TableGotoFirst
  | TableGotoLast
  | TableReset
  | TableDismissModal
  | PalleteGotoPrev
  | PalleteGotoNext
  | PalleteGotoStart
  | PalleteGotoEnd
  | PalleteDeletePrev
  | PalleteDeleteNext
  | PalleteSelectPrevious
  | PalleteSelectNext
  | PalleteInsertSelectedOrCommit
  | PalleteDeselectOrDismiss
  | PalleteInsert (c : Char)
  | SheetScrollUp
  | SheetScrollDown
  | SearchGotoPrev
  | SearchGotoNext
  | SearchGotoStart
  | SearchGotoEnd
  | SearchDeletePrev
  | SearchDeleteNext
  | SearchCommit
  | SearchRollback
  | SearchInsert (c : Char)
deriving Repr, DecidableEq

/-- A bound action (`src/handler/key.rs`, lines 7-10): either a direct
`AppAction` or a closure evaluated on the key event. -/
inductive Action where
  | direct (a : AppAction)
  | closure (f : KeyEvent → AppAction)

/-- A registered keybind (lines 33-38). -/
structure Keybind where
  code : KeyCode
  modifiers : KeyModifiers
  action : Action

/-- `Keybind::matches` (lines 91-98): exact match on code and modifier set,
then evaluate the action (a closure reads the event). -/
def Keybind.matches (kb : Keybind) (event : KeyEvent) : Option AppAction :=
  if kb.code = event.code ∧ kb.modifiers = event.modifiers then
    some (match kb.action with
          | .direct a => a
          | .closure f => f event)
  else none

/-- Per-context keybind list with optional fallback closure (lines 101-105). -/
structure Keybinds where
  list : List Keybind
  fall_back : Option (KeyEvent → Option AppAction)

/-- `Keybinds::find` (lines 108-113): first matching keybind in registration
order, else the fallback closure. -/
def Keybinds.find (kbs : Keybinds) (event : KeyEvent) : Option AppAction :=
  (kbs.list.findSome? (fun kb => kb.matches event)).or
    (kbs.fall_back.bind (fun fb => fb event))

/-- The UI contexts registered by the key handler in `src/handler/key.rs`. -/
inductive AppContext where
  | Empty
  | Error
  | Table
  | Command
  | Sheet
  | Search
deriving Repr, DecidableEq

/-- Modelled from the spec: `AppContext::parent` is declared outside `src/`.
Spec section 3: contexts form a tree with `Empty` the unique root (no
parent) and every context reaching the root in at most three parent steps;
the modal contexts (`Sheet`, `Search`) sit below `Table`. -/
def AppContext.parent : AppContext → Option AppContext
  | .Empty => none
  | .Error => some .Empty
  | .Table => some .Empty
  | .Command => some .Empty
  | .Sheet => some .Table
  | .Search => some .Table

/-- Distance to the root along `parent`; the termination measure of the
resolution loop. -/
def AppContext.depth : AppContext → Nat
  | .Empty => 0
  | .Error => 1
  | .Table => 1
  | .Command => 1
  | .Sheet => 2
  | .Search => 2

/-- Parents strictly decrease the depth measure. -/
theorem AppContext.parent_depth_lt {ctx p : AppContext} (hp : ctx.parent = some p) :
    p.depth < ctx.depth := by
  cases ctx <;> simp_all [AppContext.parent] <;> subst hp <;> simp [AppContext.depth]

/-- `KeyHandler` (lines 125-127): the per-context keybind table
(`HashMap::get` yields an `Option`). -/
structure KeyHandler where
  map : AppContext → Option Keybinds

/-- `KeyHandler::action` (lines 130-142): look the context up, take the
first match; otherwise walk to the parent; at the root, return the no-op. -/
def KeyHandler.action (h : KeyHandler) (ctx : AppContext) (e : KeyEvent) : AppAction :=
  match (h.map ctx).bind (fun kbl => kbl.find e) with
  | some act => act
  | none =>
    match hp : ctx.parent with
    | some p => h.action p e
    | none => AppAction.NoAction
termination_by ctx.depth
decreasing_by exact AppContext.parent_depth_lt hp

/-- The ancestor chain of a context, starting with the context itself. -/
def AppContext.ancestors (ctx : AppContext) : List AppContext :=
  ctx :: (match hp : ctx.parent with
          | some p => p.ancestors
          | none => [])
termination_by ctx.depth
decreasing_by exact AppContext.parent_depth_lt hp

/-- The resolution procedure in the spec's words (sections 4.1 and 8): scan
the ancestor chain, at each node try the keybind list then the fallback, and
default to the no-op action when the chain is exhausted. -/
def KeyHandler.resolveSpec (h : KeyHandler) (ctx : AppContext) (e : KeyEvent) : AppAction :=
  (ctx.ancestors.findSome? (fun c => (h.map c).bind (fun kbl => kbl.find e))).getD
    AppAction.NoAction

/-! ## Supporting lemmas for the viewport engine -/

/-- A sample frame with one text column of the given height. -/
def dfOfHeight (n : Nat) : DataFrame :=
  ⟨[⟨"c", .str, List.replicate n (some (.vStr "x"))⟩]⟩

theorem Tabular.selectTo_select (t : Tabular) (s : Nat) :
    (t.selectTo s).select = min s (t.height - 1) := rfl

theorem Tabular.applyNav_height (t : Tabular) (op : NavOp) :
    (t.applyNav op).height = t.height := by
  cases op <;>
    simp [Tabular.applyNav, Tabular.selectTo, Tabular.select_up, Tabular.select_down,
      Tabular.select_first, Tabular.select_last, Tabular.height]

theorem Tabular.applyNav_rendered (t : Tabular) (op : NavOp) :
    (t.applyNav op).rendered_rows = t.rendered_rows := by
  cases op <;>
    simp [Tabular.applyNav, Tabular.selectTo, Tabular.select_up, Tabular.select_down,
      Tabular.select_first, Tabular.select_last]

theorem Tabular.applyNav_select_le (t : Tabular) (op : NavOp) :
    (t.applyNav op).select ≤ t.height - 1 := by
  cases op <;>
    simp [Tabular.applyNav, Tabular.selectTo, Tabular.select_up, Tabular.select_down,
      Tabular.select_first, Tabular.select_last, Tabular.height]

theorem Tabular.applyNavs_height (t : Tabular) (ops : List NavOp) :
    (t.applyNavs ops).height = t.height := by
  induction ops generalizing t with
  | nil => rfl
  | cons op ops ih =>
    simp only [Tabular.applyNavs, List.foldl_cons] at *
    rw [ih, Tabular.applyNav_height]

theorem Tabular.applyNavs_rendered (t : Tabular) (ops : List NavOp) :
    (t.applyNavs ops).rendered_rows = t.rendered_rows := by
  induction ops generalizing t with
  | nil => rfl
  | cons op ops ih =>
    simp only [Tabular.applyNavs, List.foldl_cons] at *
    rw [ih, Tabular.applyNav_rendered]

theorem Tabular.applyNavs_select_le (t : Tabular) (ops : List NavOp)
    (h0 : t.select ≤ t.height - 1) : (t.applyNavs ops).select ≤ t.height - 1 := by
  induction ops generalizing t with
  | nil => exact h0
  | cons op ops ih =>
    simp only [Tabular.applyNavs, List.foldl_cons] at *
    have h1 := Tabular.applyNav_select_le t op
    have h2 := Tabular.applyNav_height t op
    have := ih (t.applyNav op) (by rw [h2]; exact h1)
    rwa [h2] at this

theorem Tabular.adjust_offset_select (t : Tabular) :
    t.adjust_offset.select = t.select := rfl

theorem Tabular.adjust_offset_le (t : Tabular) :
    t.adjust_offset.offset ≤ t.select := by
  simp only [Tabular.adjust_offset, clampNat]
  exact max_le (Nat.sub_le _ _) (min_le_right _ _)

theorem Tabular.adjust_offset_ge (t : Tabular) :
    t.select - (t.rendered_rows - 1) ≤ t.adjust_offset.offset :=
  le_max_left _ _

/-! ## C1 -/

/-- C1: starting from a fresh `Tabular` over any frame, with any rendered
row count, after any sequence of the navigation operations `select`,
`select_up`, `select_down`, `select_first`, `select_last` followed by
`adjust_offset`, the viewport invariant holds: when `visible_rows > 0`,
`offset ≤ selected ≤ offset + visible_rows - 1`; when `total_rows > 0`,
`selected < total_rows`; and `selected = 0` when `total_rows = 0`. -/
theorem viewport_invariant_after_navigation (df : DataFrame) (rr : Nat) (ops : List NavOp)
    (t : Tabular)
    (ht : t = (((Tabular.new df).setRenderedRows rr).applyNavs ops).adjust_offset) :
    (0 < rr → t.offset ≤ t.select ∧ t.select ≤ t.offset + rr - 1) ∧
    (0 < df.height → t.select < df.height) ∧
    (df.height = 0 → t.select = 0) := by
  subst ht
  set s := ((Tabular.new df).setRenderedRows rr).applyNavs ops with hs
  have hrr : s.rendered_rows = rr := by
    rw [hs, Tabular.applyNavs_rendered]; rfl
  have hh : s.height = df.height := by
    rw [hs, Tabular.applyNavs_height]; rfl
  have hsel : s.select ≤ df.height - 1 := by
    have h0 : ((Tabular.new df).setRenderedRows rr).select ≤
        ((Tabular.new df).setRenderedRows rr).height - 1 := by
      simp [Tabular.new, Tabular.setRenderedRows, Tabular.height]
    exact Tabular.applyNavs_select_le _ ops h0
  have h1 := Tabular.adjust_offset_le s
  have h2 := Tabular.adjust_offset_ge s
  rw [hrr] at h2
  rw [Tabular.adjust_offset_select]
  refine ⟨fun hpos => ⟨h1, ?_⟩, fun hpos => ?_, fun hz => ?_⟩
  · omega
  · omega
  · omega

/-- C1 witness state: ten rows, four rendered rows, go to last then three up. -/
def c1State : Tabular :=
  (((Tabular.new (dfOfHeight 10)).setRenderedRows 4).applyNavs [.last, .up 3]).adjust_offset

/-- C1 witness: the invariant instantiated at `c1State` (and the empty-frame
clause at height 0), with every hypothesis discharged concretely. -/
theorem viewport_invariant_witness :
    (c1State.offset ≤ c1State.select ∧ c1State.select ≤ c1State.offset + 4 - 1) ∧
    c1State.select < (dfOfHeight 10).height ∧
    ((((Tabular.new (dfOfHeight 0)).setRenderedRows 4).applyNavs
        [.last, .up 3]).adjust_offset.select = 0) :=
  ⟨(viewport_invariant_after_navigation (dfOfHeight 10) 4 [.last, .up 3] c1State rfl).1
      (by decide),
   (viewport_invariant_after_navigation (dfOfHeight 10) 4 [.last, .up 3] c1State rfl).2.1
      (by decide),
   (viewport_invariant_after_navigation (dfOfHeight 0) 4 [.last, .up 3] _ rfl).2.2
      (by decide)⟩

/-! ## C2 -/

/-- C2 counterexample: with ten rows and the selection at row 1, moving down
by `usize::MAX` does not yield `min(selected + n, total_rows - 1) = 9` — the
unchecked `usize` addition in `select_down` wraps to 0 (release builds; debug
builds panic), so the selection lands on row 0. -/
theorem select_down_usize_max_counterexample :
    (((Tabular.new (dfOfHeight 10)).selectTo 1).select_down USIZE_MAX).select = 0 ∧
    (((Tabular.new (dfOfHeight 10)).selectTo 1).select_down USIZE_MAX).select ≠
      min (1 + USIZE_MAX) ((dfOfHeight 10).height - 1) := by
  constructor <;> decide

/-- C2 amended: relative selection saturates as claimed for `select_up` at
every `n`, and for `select_down` at every `n` for which the `usize` addition
`selected + n` does not overflow; on overflow the sum wraps modulo `2 ^ 64`
(the counterexample above) instead of clamping to `total_rows - 1`. -/
theorem select_relative_saturates (t : Tabular) (n : Nat)
    (hsel : t.select ≤ t.height - 1) :
    (t.select_up n).select = t.select - n ∧
    (t.select + n < USIZE →
      (t.select_down n).select = min (t.select + n) (t.height - 1)) := by
  constructor
  · rw [Tabular.select_up, Tabular.selectTo_select]
    exact Nat.min_eq_left (le_trans (Nat.sub_le _ _) hsel)
  · intro hov
    rw [Tabular.select_down, Tabular.selectTo_select, Nat.mod_eq_of_lt hov]

/-- C2 witness: ten rows, selection at 5, `n = 3`: up lands on 2 and down on
8, with the no-overflow side condition discharged concretely. -/
theorem select_relative_saturates_witness :
    (((Tabular.new (dfOfHeight 10)).selectTo 5).select_up 3).select =
      ((Tabular.new (dfOfHeight 10)).selectTo 5).select - 3 ∧
    (((Tabular.new (dfOfHeight 10)).selectTo 5).select_down 3).select =
      min (((Tabular.new (dfOfHeight 10)).selectTo 5).select + 3)
        (((Tabular.new (dfOfHeight 10)).selectTo 5).height - 1) :=
  ⟨(select_relative_saturates ((Tabular.new (dfOfHeight 10)).selectTo 5) 3 (by decide)).1,
   (select_relative_saturates ((Tabular.new (dfOfHeight 10)).selectTo 5) 3 (by decide)).2
      (by decide)⟩

/-! ## C6 -/

/-- C6: replacing the active frame through `set_data_frame` — the single
path taken by query runs, filters, column selection, order-by, reset and
help in `App::invoke` — resets the selection and the window offset to 0,
whatever the prior viewport state. -/
theorem set_data_frame_resets (t : Tabular) (df : DataFrame) :
    (t.set_data_frame df).select = 0 ∧ (t.set_data_frame df).offset = 0 := by
  constructor <;> rfl

/-! ## C7 -/

/-- C7 scenario start state: a ten-row table with page size 5. -/
def c7Start : Tabular := (Tabular.new (dfOfHeight 10)).setRenderedRows 5

/-- C7 counterexample: go-to-last followed by half-page-up with page size 5
does not leave the selection at 4. -/
theorem goto_last_half_page_up_counterexample :
    ((c7Start.invoke .gotoLast).invoke .goUpHalfPage).select ≠ 4 := by decide

/-- C7 amended: go-to-last selects row 9, and a half-page-up with page size
5 moves up by `page_len / 2 = 2` rows (`App::invoke` divides the page length
by two with integer division), leaving the selection at 7, not 4. -/
theorem goto_last_half_page_up_selects_7 :
    (c7Start.invoke .gotoLast).select = 9 ∧
    ((c7Start.invoke .gotoLast).invoke .goUpHalfPage).select = 7 := by
  constructor <;> decide

/-! ## C9 -/

/-- C9: whenever the detail view is not active (`scroll` is `None`), both
detail scroll operations return the non-fatal "Not in detail view" error and
leave the whole `Tabular` state — selection, offset and frame included —
unchanged. -/
theorem scroll_outside_detail_view_errors (t : Tabular) (h : t.scroll = none) :
    t.scroll_up = (t, Except.error "Not in detail view") ∧
    t.scroll_down = (t, Except.error "Not in detail view") := by
  unfold Tabular.scroll_up Tabular.scroll_down
  rw [h]
  exact ⟨rfl, rfl⟩

/-- C9 witness: a fresh table state is not in detail view, and both scroll
operations report the mode error on it. -/
theorem scroll_outside_detail_view_errors_witness :
    (Tabular.new (dfOfHeight 2)).scroll_up =
      (Tabular.new (dfOfHeight 2), Except.error "Not in detail view") ∧
    (Tabular.new (dfOfHeight 2)).scroll_down =
      (Tabular.new (dfOfHeight 2), Except.error "Not in detail view") :=
  scroll_outside_detail_view_errors (Tabular.new (dfOfHeight 2)) rfl

/-! ## C10 -/

/-- C10: on a non-empty table, `select_random` succeeds and lands the
selection inside `[0, total_rows)`; on an empty table the uniform draw over
the empty range `0..0` panics (modelled as `none`), unlike the other, total
selection operations. -/
theorem select_random_range (t : Tabular) (r : Nat) :
    (0 < t.height →
      t.select_random r = some (t.selectTo (r % t.height)) ∧
      (t.selectTo (r % t.height)).select < t.height) ∧
    (t.height = 0 → t.select_random r = none) := by
  constructor
  · intro hpos
    refine ⟨?_, ?_⟩
    · rw [Tabular.select_random, if_neg (by omega)]
    · rw [Tabular.selectTo_select]
      have : r % t.height < t.height := Nat.mod_lt _ hpos
      omega
  · intro hz
    rw [Tabular.select_random, if_pos hz]

/-- C10 witness: a draw on a three-row table lands in range; the draw on an
empty table is the panic case. -/
theorem select_random_range_witness :
    ((Tabular.new (dfOfHeight 3)).select_random 7 =
        some ((Tabular.new (dfOfHeight 3)).selectTo (7 % (Tabular.new (dfOfHeight 3)).height)) ∧
      ((Tabular.new (dfOfHeight 3)).selectTo
          (7 % (Tabular.new (dfOfHeight 3)).height)).select <
        (Tabular.new (dfOfHeight 3)).height) ∧
    (Tabular.new (dfOfHeight 0)).select_random 7 = none :=
  ⟨(select_random_range (Tabular.new (dfOfHeight 3)) 7).1 (by decide),
   (select_random_range (Tabular.new (dfOfHeight 0)) 7).2 (by decide)⟩

/-! ## C8 -/

/-- The maximum fold in `metaReduce` only looks at line lengths. -/
theorem foldMeta_fst (ls : List String) (acc : Nat × List Nat) :
    ((ls.map lineMeta).foldl metaReduce acc).1 =
      ls.foldl (fun a x => max a x.length) acc.1 := by
  induction ls generalizing acc with
  | nil => rfl
  | cons s ls ih =>
    simp only [List.map_cons, List.foldl_cons]
    rw [ih]
    rfl

/-- C8: for a non-empty input whose lines share no all-whitespace character
position (the reduced intersection is empty), the inferred width list is one
single column whose width is the longest line's full character length. -/
theorem no_shared_whitespace_single_column (lines : List String) (hne : lines ≠ [])
    (hno : sharedSpaceIndices lines = []) :
    infer_widths (commonSpaceIndices lines) = [maxLineLength lines] ∧
    maxLineLength lines = (lines.map String.length).foldl max 0 := by
  cases lines with
  | nil => exact absurd rfl hne
  | cons l ls =>
    constructor
    · rw [commonSpaceIndices, hno]
      simp [infer_widths, inferWidthsAux, List.insertionSort]
    · rw [maxLineLength, foldMeta_fst]
      rw [List.map_cons, List.foldl_cons, List.foldl_map, Nat.zero_max]
      rfl

/-- C8 witness: two lines with no whitespace at all; the single inferred
column spans the longest (length 2) line. -/
theorem no_shared_whitespace_single_column_witness :
    infer_widths (commonSpaceIndices ["ab", "cd"]) = [maxLineLength ["ab", "cd"]] ∧
    maxLineLength ["ab", "cd"] = (["ab", "cd"].map String.length).foldl max 0 :=
  no_shared_whitespace_single_column ["ab", "cd"] (by decide) (by decide)

/-! ## C4 -/

/-- C4: the fuzzy matcher is the ordered-subsequence test on string cells:
the empty query matches every candidate, "ac" matches "abc" (characters in
order, not contiguous), and "ba" does not match "abc" (order must be
preserved). -/
theorem fuzzy_match_is_ordered_subsequence :
    (∀ s : String, (AnyValue.str s).fuzzy_cmp "" = true) ∧
    (AnyValue.str "abc").fuzzy_cmp "ac" = true ∧
    (AnyValue.str "abc").fuzzy_cmp "ba" = false := by
  refine ⟨fun s => ?_, by decide, by decide⟩
  show hasSubsequenceAux 0 s.data [] 0 = true
  cases s.data with
  | nil => rfl
  | cons c cs => rfl

/-! ## C3 -/

/-- One-step unfolding of the resolution loop `KeyHandler::action`. -/
theorem KeyHandler.action_eq (h : KeyHandler) (ctx : AppContext) (e : KeyEvent) :
    h.action ctx e =
      match (h.map ctx).bind (fun kbl => kbl.find e) with
      | some act => act
      | none =>
        match ctx.parent with
        | some p => h.action p e
        | none => AppAction.NoAction := by
  rw [KeyHandler.action]
  cases hfind : (h.map ctx).bind (fun kbl => kbl.find e) with
  | some a => rfl
  | none => cases hp : ctx.parent <;> rfl

/-- One-step unfolding of the spec-side chain resolution. -/
theorem KeyHandler.resolveSpec_eq (h : KeyHandler) (ctx : AppContext) (e : KeyEvent) :
    h.resolveSpec ctx e =
      match (h.map ctx).bind (fun kbl => kbl.find e) with
      | some act => act
      | none =>
        match ctx.parent with
        | some p => h.resolveSpec p e
        | none => AppAction.NoAction := by
  rw [KeyHandler.resolveSpec, AppContext.ancestors]
  cases hfind : (h.map ctx).bind (fun kbl => kbl.find e) with
  | some a =>
    cases hp : ctx.parent <;> simp [List.findSome?_cons, hfind]
  | none =>
    cases hp : ctx.parent <;> simp [List.findSome?_cons, hfind, KeyHandler.resolveSpec]

/-- C3: for every key handler, context and key event, the resolution loop of
`KeyHandler::action` computes exactly the spec's parent-chain procedure
`resolveSpec`: at each node it first takes the first registered keybind
match, then consults the fallback closure (both inside `Keybinds::find`),
then moves to the parent context, and yields the no-op action at the root
when nothing matched.  Both sides are total Lean functions, so resolution
never fails. -/
theorem key_resolution_follows_parent_chain (h : KeyHandler) (ctx : AppContext)
    (e : KeyEvent) : h.action ctx e = h.resolveSpec ctx e := by
  have key : ∀ n (c : AppContext), c.depth ≤ n → h.action c e = h.resolveSpec c e := by
    intro n
    induction n with
    | zero =>
      intro c hle
      rw [KeyHandler.action_eq h c e, KeyHandler.resolveSpec_eq h c e]
      cases hfind : (h.map c).bind (fun kbl => kbl.find e) with
      | some a => rfl
      | none =>
        cases hp : c.parent with
        | some p => exact absurd (AppContext.parent_depth_lt hp) (by omega)
        | none => rfl
    | succ n ih =>
      intro c hle
      rw [KeyHandler.action_eq h c e, KeyHandler.resolveSpec_eq h c e]
      cases hfind : (h.map c).bind (fun kbl => kbl.find e) with
      | some a => rfl
      | none =>
        cases hp : c.parent with
        | some p =>
          have := AppContext.parent_depth_lt hp
          exact ih p (by omega)
        | none => rfl
  exact key ctx.depth ctx le_rfl

/-! ## C5 -/

/-- Whether a cell is null or holds an `Int64` value. -/
def isIntCell : Option PVal → Bool
  | none => true
  | some (.vInt _) => true
  | some _ => false

/-- Whether a series is a well-formed `Int64` column: the declared dtype is
`Int64` and every cell is null or an integer. -/
def intShaped (s : Series) : Bool :=
  decide (s.dtype = DType.int64) && s.values.all isIntCell

/-- Casting an `Int64` cell to `Int64` is the identity. -/
theorem castVal_int_cell (o : Option PVal) (h : isIntCell o = true) :
    o.bind (castVal .int64) = o := by
  match o with
  | none => rfl
  | some (.vInt i) => rfl
  | some (.vStr _) | some (.vFloat _) | some (.vBool _) | some (.vDate _)
  | some (.vTime _) | some (.vDatetime _) => simp [isIntCell] at h

/-- Casting a well-formed `Int64` series to `Int64` returns it unchanged. -/
theorem castSeries_int_id (s : Series) (h : intShaped s = true) :
    castSeries .int64 s = s := by
  obtain ⟨name, dtype, values⟩ := s
  simp only [intShaped, Bool.and_eq_true, decide_eq_true_eq, List.all_eq_true] at h
  obtain ⟨hd, hv⟩ := h
  subst hd
  simp only [castSeries, Series.mk.injEq, true_and]
  induction values with
  | nil => rfl
  | cons o os ih =>
    simp only [List.map_cons, List.cons.injEq]
    exact ⟨castVal_int_cell o (hv o (by simp)), ih (fun x hx => hv x (by simp [hx]))⟩

/-- Mapping a function that fixes every element of a list is the identity. -/
theorem list_map_fixed {α : Type} (l : List α) (f : α → α) (h : ∀ a ∈ l, f a = a) :
    l.map f = l := by
  induction l with
  | nil => rfl
  | cons a l ih =>
    simp only [List.map_cons, List.cons.injEq]
    exact ⟨h a (by simp), ih (fun x hx => h x (by simp [hx]))⟩

/-- Inference on a well-formed `Int64` series finds the `Int64` candidate
first and returns the series itself. -/
theorem typeInferedSeries_intShaped (s : Series) (h : intShaped s = true) :
    typeInferedSeries s = some s := by
  rw [typeInferedSeries, candidateDTypes]
  simp only [List.map_cons, List.map_nil]
  rw [castSeries_int_id s h]
  exact List.find?_cons_of_pos _ (by simp)

/-- Replacing a column by itself changes nothing when column names are
unique (a polars `DataFrame` invariant). -/
theorem replaceCol_self (df : DataFrame) (s : Series)
    (hnames : (df.columns.map Series.name).Nodup) (hs : s ∈ df.columns) :
    df.replaceCol s.name s = df := by
  obtain ⟨cols⟩ := df
  simp only [DataFrame.replaceCol, DataFrame.mk.injEq]
  apply list_map_fixed
  intro c hc
  by_cases heq : c.name = s.name
  · simp only [heq, if_pos rfl]
    exact (List.inj_on_of_nodup_map hnames hc hs heq).symm
  · simp [heq]

/-- Folding replace-by-name over pairs that each leave the frame unchanged
leaves the frame unchanged. -/
theorem foldl_replaceCol_id (df : DataFrame) (ps : List (String × Series))
    (h : ∀ p ∈ ps, df.replaceCol p.1 p.2 = df) :
    ps.foldl (fun acc ns => acc.replaceCol ns.1 ns.2) df = df := by
  induction ps with
  | nil => rfl
  | cons p ps ih =>
    simp only [List.foldl_cons]
    rw [h p (by simp)]
    exact ih (fun q hq => h q (by simp [hq]))

/-- The sample frame of the C5 counterexample: one text column holding the
single value "1.5". -/
def df15 : DataFrame := ⟨[⟨"a", .str, [some (.vStr "1.5")]⟩]⟩

/-- C5 counterexample: schema inference is not idempotent.  On `df15` the
first run promotes the column to `Float64` (the `Int64` cast of "1.5" turns
the value into null, the `Float64` cast is lossless); the second run finds
that the `Float64` column casts to `Int64` with no new nulls — truncating
1.5 to 1 — and replaces it, so `infer (infer t) ≠ infer t` and a second run
changes an already-typed column. -/
theorem safe_infer_schema_not_idempotent :
    df15.safe_infer_schema.safe_infer_schema ≠ df15.safe_infer_schema ∧
    df15.safe_infer_schema.columns.map Series.dtype = [DType.float64] ∧
    df15.safe_infer_schema.safe_infer_schema.columns.map Series.dtype = [DType.int64] := by
  refine ⟨by decide, by decide, by decide⟩

/-- C5 amended: inference is a no-op — hence idempotent — exactly on frames
each of whose columns either defeats every candidate cast (and is left as
text) or already is a well-formed `Int64` column; in general idempotence
fails, because a second run may re-promote an inferred column to an earlier
candidate type (the counterexample truncates a `Float64` column to `Int64`).
Column names are assumed unique, as polars guarantees. -/
theorem safe_infer_schema_noop_on_int_or_text (df : DataFrame)
    (hnames : (df.columns.map Series.name).Nodup)
    (hcols : ∀ s ∈ df.columns, typeInferedSeries s = none ∨ intShaped s = true) :
    df.safe_infer_schema = df ∧
    df.safe_infer_schema.safe_infer_schema = df.safe_infer_schema := by
  have hid : df.safe_infer_schema = df := by
    rw [DataFrame.safe_infer_schema]
    apply foldl_replaceCol_id
    intro p hp
    obtain ⟨s, hs_mem, hs_eq⟩ := List.mem_filterMap.mp hp
    rcases hcols s hs_mem with hnone | hint
    · rw [hnone] at hs_eq
      exact Option.noConfusion hs_eq
    · rw [typeInferedSeries_intShaped s hint] at hs_eq
      injection hs_eq with h
      rw [← h]
      exact replaceCol_self df s hnames hs_mem
  exact ⟨hid, by rw [hid, hid]⟩

/-- C5 amended witness: a frame with one well-formed `Int64` column and one
uninferrable text column; inference leaves it untouched and is idempotent
on it. -/
def dfIntText : DataFrame :=
  ⟨[⟨"a", .int64, [some (.vInt 2), none]⟩, ⟨"b", .str, [some (.vStr "x"), some (.vStr "y")]⟩]⟩

/-- C5 witness: the amended no-op statement instantiated at `dfIntText`,
with uniqueness of names and the per-column condition checked concretely. -/
theorem safe_infer_schema_noop_witness :
    dfIntText.safe_infer_schema = dfIntText ∧
    dfIntText.safe_infer_schema.safe_infer_schema = dfIntText.safe_infer_schema :=
  safe_infer_schema_noop_on_int_or_text dfIntText (by decide) (by decide)

end Tabiew
